import Mathlib

/-
Shallow embedding of `src/packages/microservices/client/client-tcp.ts`
(class `ClientTCP`, NestJS TCP client transport).

Modelling conventions:
- Callbacks stored in the routing map are opaque tokens (`Cb := Nat`); an
  operation returns, besides the new state, the list of callback invocations
  it performed, as pairs (callback token, outcome packet). "Callback c was
  invoked with outcome o" means the pair (c, o) occurs in that list.
- The routing map (a JS `Map` declared on the `ClientProxy` base class and
  used here) is an association list with JS `Map` semantics: `set` replaces
  in place preserving insertion order, `values` iterates in insertion order.
- JS exceptions thrown by the pluggable serializer or by the socket write are
  modelled by boolean success flags passed into `publish`; the `try/catch` of
  the source routes a failure to the callback, which the embedding mirrors
  structurally.
- Promise identity (the shared connection future) and socket identity are
  `Nat` tokens; `connect` receives fresh tokens for the socket/promise it
  would create and reports how many sockets it created and whether it issued
  the stream-level `socket.connect(port, host)` call.
- `undefined`/absent JS fields are `Option.none`; JS truthiness of the
  `err` field (an `Error` object or `undefined`) is `Option.isSome`, and of
  the `isDisposed` field (a boolean or `undefined`) is `some true`.
-/

namespace ClientTCP

/-- Opaque identity of a registered response callback. -/
abbrev Cb := Nat

/-- Outcome object passed to a routing-map callback; mirrors the `WritePacket`
fields `err`, `response`, `isDisposed` that `client-tcp.ts` constructs. -/
structure WritePacket where
  err : Option String := none
  response : Option String := none
  isDisposed : Option Bool := none
deriving DecidableEq, Repr

/-- One callback invocation performed by an operation. -/
abbrev Invocation := Cb × WritePacket

/-- The routing map: request id to callback, JS `Map` insertion order. -/
abbrev RoutingMap := List (Nat × Cb)

/-- JS `Map.get`. -/
def mapGet : RoutingMap → Nat → Option Cb
  | [], _ => none
  | p :: rest, id => if p.1 = id then some p.2 else mapGet rest id

/-- JS `Map.set`: replaces in place if the key exists, else appends. -/
def mapSet : RoutingMap → Nat → Cb → RoutingMap
  | [], id, cb => [(id, cb)]
  | p :: rest, id, cb =>
      if p.1 = id then (id, cb) :: rest else p :: mapSet rest id cb

/-- JS `Map.delete`. -/
def mapDelete (m : RoutingMap) (id : Nat) : RoutingMap :=
  m.filter (fun p => p.1 ≠ id)

/-- Mutable fields of a `ClientTCP` instance that the claims concern:
`isConnected`, the owned socket reference, the shared connection promise
(`connection`), and the routing map inherited from `ClientProxy`. -/
structure ClientState where
  isConnected : Bool
  socket : Option Nat
  connection : Option Nat
  routingMap : RoutingMap
deriving DecidableEq, Repr

/-- Construction-time configuration used by `connect`/`createSocket`:
whether `tlsOptions` were supplied, and the target port/host. -/
structure Config where
  tlsOptions : Bool
  port : Nat
  host : String
deriving DecidableEq, Repr

/-- The message of the Error value constructed in `handleClose`. -/
def connClosedErr : String := "Connection closed"

/-- Embeds `ClientTCP.handleClose`: sets `isConnected = false`, nulls the
socket, discards the connection promise, and, when the routing map is
non-empty, invokes every registered callback with `{ err }` where `err` is
the `Connection closed` error, then clears the map. Returns the new state and
the list of callback invocations performed. -/
def handleClose (st : ClientState) : ClientState × List Invocation :=
  let st1 : ClientState :=
    { st with isConnected := false, socket := none, connection := none }
  if st1.routingMap.isEmpty then (st1, [])
  else
    ({ st1 with routingMap := [] },
     st1.routingMap.map (fun p => (p.2, ({ err := some connClosedErr } : WritePacket))))

/-- Result of a `connect()` call: the new state, the identity of the promise
returned to the caller, how many sockets the call created (`createSocket`
invocations), and whether the stream-level `socket.connect(port, host)` call
was issued by this invocation. -/
structure ConnectResult where
  st : ClientState
  promise : Nat
  socketsCreated : Nat
  streamConnectIssued : Bool
deriving DecidableEq, Repr

/-- Embeds `ClientTCP.connect`: if `this.connection` is set it is returned
unchanged (a `Promise` object is always truthy) and no socket is created;
otherwise a fresh socket is created (`createSocket` + `bindEvents`), the
stream-level connect is issued exactly when no `tlsOptions` are present (the
TLS upgrade connects during construction), and a fresh shared promise is
stored and returned. `freshSocket`/`freshPromise` are the identities the call
would mint. -/
def connect (cfg : Config) (st : ClientState) (freshSocket freshPromise : Nat) :
    ConnectResult :=
  match st.connection with
  | some p => ⟨st, p, 0, false⟩
  | none =>
      ⟨{ st with socket := some freshSocket, connection := some freshPromise },
       freshPromise, 1, !cfg.tlsOptions⟩

/-- A decoded inbound message as produced by the deserializer boundary
(`deserialize(buffer)` destructured in `handleResponse`). -/
structure IncomingPacket where
  id : Nat
  err : Option String := none
  response : Option String := none
  isDisposed : Option Bool := none
deriving DecidableEq, Repr

/-- JS truthiness of an optional boolean field (`undefined` is falsy). -/
def truthyBool : Option Bool → Bool
  | some b => b
  | none => false

/-- Embeds `ClientTCP.handleResponse` on an already-decoded packet (the
deserializer is an external pluggable boundary): looks up the callback for
the packet id; absent id is a no-op; `isDisposed || err` truthy invokes the
callback with `{ err, response, isDisposed: true }`; otherwise the callback
receives `{ err, response }`. The routing map is never modified here. -/
def handleResponse (st : ClientState) (msg : IncomingPacket) :
    ClientState × List Invocation :=
  match mapGet st.routingMap msg.id with
  | none => (st, [])
  | some cb =>
      if truthyBool msg.isDisposed || msg.err.isSome then
        (st, [(cb, { err := msg.err, response := msg.response, isDisposed := some true })])
      else
        (st, [(cb, { err := msg.err, response := msg.response })])

/-- Error carried to the callback when `serializer.serialize` throws. -/
def serializeFailedErr : String := "serialization failed"

/-- Error carried to the callback when `socket.sendMessage` throws. -/
def sendFailedErr : String := "send failed"

/-- Embeds `ClientTCP.publish`. `id` is the identifier minted by
`assignPacketId` (owned by the `ClientProxy` base); `serializeOk` and
`sendOk` model whether `serializer.serialize` and `socket.sendMessage`
throw. On full success the routing map gains `(id, cb)` and the returned
cancellation handle (modelled as `some id`, since the source handle is
`() => this.routingMap.delete(packet.id)`) is produced; on a throw the
`catch` block invokes the callback with `{ err }` and the function returns
`undefined` (`none`). The map entry set before a send failure stays. -/
def publish (st : ClientState) (id : Nat) (serializeOk sendOk : Bool) (cb : Cb) :
    ClientState × List Invocation × Option Nat :=
  if serializeOk then
    let st1 : ClientState := { st with routingMap := mapSet st.routingMap id cb }
    if sendOk then (st1, [], some id)
    else (st1, [(cb, { err := some sendFailedErr })], none)
  else
    (st, [(cb, { err := some serializeFailedErr })], none)

/-- Embeds `ClientTCP.close`: `this.socket && this.socket.end()` followed by
`handleClose()`. The boolean reports whether `socket.end()` (graceful
end-of-stream) was requested, which happens exactly when a socket exists. -/
def close (st : ClientState) : ClientState × List Invocation × Bool :=
  let endRequested := st.socket.isSome
  let r := handleClose st
  (r.1, r.2, endRequested)

/-- The `ECONNREFUSED` error code constant. -/
def ECONNREFUSED : String := "ECONNREFUSED"

/-- A socket error event, carrying its `code`. -/
structure ErrEvent where
  code : String
deriving DecidableEq, Repr

/-- Embeds `ClientTCP.handleError`: forwards the error to the process-level
fault reporter (`this.logger.error(err)`); returns the log entries emitted. -/
def handleError (e : ErrEvent) : List ErrEvent := [e]

/-- Embeds the error listener installed by `bindEvents`:
`err => err.code !== ECONNREFUSED && this.handleError(err)`. Returns the
(unchanged) state and the fault-reporter entries emitted. -/
def onErrorEvent (st : ClientState) (e : ErrEvent) : ClientState × List ErrEvent :=
  if e.code ≠ ECONNREFUSED then (st, handleError e) else (st, [])

/-- Rejection causes of the underlying connect event stream awaited by
`lastValueFrom(source$)`: rxjs `EmptyError` (stream completed with no value)
or any other error. -/
inductive StreamErr where
  | emptyError : StreamErr
  | other : String → StreamErr
deriving DecidableEq, Repr

/-- Embeds the `.catch` attached to the shared connection promise in
`connect`: an `EmptyError` rejection resolves silently with `undefined`
(`ok none`); any other rejection is re-thrown; a fulfilled stream value
passes through. -/
def catchEmptyAsResolved {α : Type} (r : Except StreamErr α) :
    Except StreamErr (Option α) :=
  match r with
  | .ok a => .ok (some a)
  | .error .emptyError => .ok none
  | .error (.other m) => .error (.other m)

/-- Modelled from the spec: the generic request-dispatch base (`ClientProxy`,
repository code not under `src/`) that calls `publish` owns the correlation
entry removal — per the spec, on a terminal (disposed) outcome the Outbound
caller may now remove its own correlation entry, and an
identifier is removed from the registry exactly once on response delivery.
The caller therefore invokes the cancellation handle returned by `publish`
once an outcome flagged `isDisposed` has been delivered. -/
def callerRemoveOnTerminal (st : ClientState) (handle : Option Nat)
    (out : List Invocation) : ClientState :=
  if out.any (fun i => i.2.isDisposed == some true) then
    match handle with
    | some id => { st with routingMap := mapDelete st.routingMap id }
    | none => st
  else st

/- Example states used by witnesses and counterexamples. -/

/-- A connected client with two pending requests. -/
def stConnEx : ClientState :=
  { isConnected := true, socket := some 7, connection := some 5,
    routingMap := [(1, 10), (2, 20)] }

/-- An idle client (never connected). -/
def stIdleEx : ClientState :=
  { isConnected := false, socket := none, connection := none, routingMap := [] }

/-- A plain (non-TLS) configuration. -/
def cfgEx : Config := { tlsOptions := false, port := 3000, host := "localhost" }

/- Auxiliary lemmas about the JS-Map model. -/

lemma mapGet_mapSet_self (m : RoutingMap) (id : Nat) (cb : Cb) :
    mapGet (mapSet m id cb) id = some cb := by
  induction m with
  | nil => simp [mapSet, mapGet]
  | cons p rest ih =>
      by_cases h : p.1 = id
      · simp [mapSet, h, mapGet]
      · simp [mapSet, h, mapGet, ih]

lemma mapGet_mapDelete_self (m : RoutingMap) (id : Nat) :
    mapGet (mapDelete m id) id = none := by
  induction m with
  | nil => simp [mapDelete, mapGet]
  | cons p rest ih =>
      by_cases h : p.1 = id
      · simpa [mapDelete, h] using ih
      · simpa [mapDelete, mapGet, h] using ih

/- Claim theorems. -/

/-- C1: when a close event fires (`handleClose` runs), `isConnected` becomes
false, the socket reference and the connection promise are discarded, every
callback registered in the routing map at that instant is invoked with a
`Connection closed` failure outcome, the routing map is left empty, and a
subsequent `connect()` starts a fresh connecting cycle: it creates a new
socket and returns the fresh promise rather than any old one. -/
theorem handleClose_spec (st : ClientState) (cfg : Config) (fs fp : Nat) :
    (handleClose st).1.isConnected = false ∧
    (handleClose st).1.socket = none ∧
    (handleClose st).1.connection = none ∧
    (handleClose st).1.routingMap = [] ∧
    (handleClose st).2 =
      st.routingMap.map
        (fun p => (p.2, ({ err := some connClosedErr } : WritePacket))) ∧
    connect cfg (handleClose st).1 fs fp =
      ⟨{ (handleClose st).1 with socket := some fs, connection := some fp },
       fp, 1, !cfg.tlsOptions⟩ := by
  cases hm : st.routingMap with
  | nil => simp [handleClose, hm, connect]
  | cons p rest => simp [handleClose, hm, connect]

/-- C2: `connect()` is idempotent while the connection promise is set —
it returns the very same promise, creates no socket and issues no
stream-level connect, leaving the state unchanged; only a call made while
the promise is cleared creates the (single) socket, stores the fresh
promise, and issues the stream-level connect exactly when no TLS options
are configured. -/
theorem connect_spec (cfg : Config) (st : ClientState) (fs fp : Nat) :
    (∀ p, st.connection = some p →
        connect cfg st fs fp = ⟨st, p, 0, false⟩) ∧
    (st.connection = none →
        connect cfg st fs fp =
          ⟨{ st with socket := some fs, connection := some fp },
           fp, 1, !cfg.tlsOptions⟩) := by
  constructor
  · intro p hp
    simp [connect, hp]
  · intro h
    simp [connect, h]

/-- C2 witness: on a client whose promise is set, `connect` returns that
promise with no socket creation; on an idle client it creates one socket
and issues the plain stream-level connect. -/
theorem connect_spec_witness :
    connect cfgEx stConnEx 7 8 = ⟨stConnEx, 5, 0, false⟩ ∧
    connect cfgEx stIdleEx 7 8 =
      ⟨{ stIdleEx with socket := some 7, connection := some 8 },
       8, 1, true⟩ := by
  refine ⟨(connect_spec cfgEx stConnEx 7 8).1 5 (by decide), ?_⟩
  have h := (connect_spec cfgEx stIdleEx 7 8).2 (by decide)
  simpa [cfgEx] using h

/-- C3: for a decoded inbound message whose id has a registered callback,
if the message carries an application error or the disposed marker the
callback is invoked exactly once with the outcome flagged terminal
(`isDisposed := true`); otherwise it is invoked exactly once with the
non-terminal outcome `{ err, response }`, and in the non-terminal case the
registry entry for the id remains intact for further streamed messages. -/
theorem handleResponse_spec (st : ClientState) (msg : IncomingPacket) (cb : Cb)
    (h : mapGet st.routingMap msg.id = some cb) :
    ((truthyBool msg.isDisposed || msg.err.isSome) = true →
        handleResponse st msg =
          (st, [(cb, { err := msg.err, response := msg.response,
                       isDisposed := some true })])) ∧
    ((truthyBool msg.isDisposed || msg.err.isSome) = false →
        handleResponse st msg =
          (st, [(cb, { err := msg.err, response := msg.response })]) ∧
        mapGet (handleResponse st msg).1.routingMap msg.id = some cb) := by
  constructor
  · intro hterm
    simp [handleResponse, h, hterm]
  · intro hnon
    simp [handleResponse, h, hnon]

/-- C3 witness: a disposed message for a registered id delivers a terminal
outcome; a plain response delivers a non-terminal outcome and keeps the
entry. -/
theorem handleResponse_spec_witness :
    handleResponse stConnEx { id := 1, isDisposed := some true } =
      (stConnEx, [(10, { err := none, response := none, isDisposed := some true })]) ∧
    handleResponse stConnEx { id := 2, response := some "ok" } =
      (stConnEx, [(20, { err := none, response := some "ok" })]) := by
  refine ⟨?_, ?_⟩
  · exact (handleResponse_spec stConnEx { id := 1, isDisposed := some true } 10
      (by decide)).1 (by decide)
  · exact ((handleResponse_spec stConnEx { id := 2, response := some "ok" } 20
      (by decide)).2 (by decide)).1

/-- C4: after a terminal-flagged outcome is delivered for a request
identifier registered by a successful `publish` (as in the scenario:
send request, receive a disposed message for that id), the terminal
invocation happens exactly once and the caller — modelled from the spec as
invoking the cancellation handle returned by `publish` on a terminal
outcome — leaves the routing map without that identifier. -/
theorem terminal_removes_id (st : ClientState) (id : Nat) (cb : Cb)
    (msg : IncomingPacket) (hid : msg.id = id)
    (hterm : (truthyBool msg.isDisposed || msg.err.isSome) = true) :
    (handleResponse (publish st id true true cb).1 msg).2 =
      [(cb, { err := msg.err, response := msg.response, isDisposed := some true })] ∧
    mapGet (callerRemoveOnTerminal
        (handleResponse (publish st id true true cb).1 msg).1
        (publish st id true true cb).2.2
        (handleResponse (publish st id true true cb).1 msg).2).routingMap id = none := by
  subst hid
  have hpub : publish st msg.id true true cb =
      ({ st with routingMap := mapSet st.routingMap msg.id cb }, [], some msg.id) := by
    simp [publish]
  have hget : mapGet (publish st msg.id true true cb).1.routingMap msg.id = some cb := by
    rw [hpub]
    exact mapGet_mapSet_self st.routingMap msg.id cb
  have hresp : handleResponse (publish st msg.id true true cb).1 msg =
      ((publish st msg.id true true cb).1,
       [(cb, { err := msg.err, response := msg.response, isDisposed := some true })]) := by
    simp [handleResponse, hget, hterm]
  refine ⟨by rw [hresp], ?_⟩
  rw [hresp, hpub, callerRemoveOnTerminal]
  simp [mapGet_mapDelete_self]

/-- C4 witness: connect, send request id 1, receive the decoded terminal
message for id 1 carrying response "ok"; the callback fires once with the
terminal outcome and the routing map no longer contains id 1. -/
theorem terminal_removes_id_witness :
    (handleResponse (publish stIdleEx 1 true true 10).1
        { id := 1, response := some "ok", isDisposed := some true }).2 =
      [(10, { err := none, response := some "ok", isDisposed := some true })] ∧
    mapGet (callerRemoveOnTerminal
        (handleResponse (publish stIdleEx 1 true true 10).1
          { id := 1, response := some "ok", isDisposed := some true }).1
        (publish stIdleEx 1 true true 10).2.2
        (handleResponse (publish stIdleEx 1 true true 10).1
          { id := 1, response := some "ok", isDisposed := some true }).2).routingMap
      1 = none :=
  terminal_removes_id stIdleEx 1 10
    { id := 1, response := some "ok", isDisposed := some true } rfl (by decide)

/-- C5: when serialization fails inside `publish`, the callback for that
single send attempt is invoked synchronously with a failure outcome, no
exception reaches the caller (the call returns `none` instead of a handle),
and the state — routing map, `isConnected`, socket, connection promise — is
completely unchanged. -/
theorem publish_serialize_failure (st : ClientState) (id : Nat) (sendOk : Bool)
    (cb : Cb) :
    publish st id false sendOk cb =
      (st, [(cb, { err := some serializeFailedErr })], none) ∧
    (publish st id false sendOk cb).1.routingMap = st.routingMap ∧
    (publish st id false sendOk cb).1.isConnected = st.isConnected ∧
    (publish st id false sendOk cb).1.socket = st.socket ∧
    (publish st id false sendOk cb).1.connection = st.connection := by
  simp [publish]

/-- C6 counterexample: the claim states a connection-refused error event is
"logged, not propagated to the process-level fault reporter", but the
listener `err => err.code !== ECONNREFUSED && this.handleError(err)` skips
`handleError` — the sole logging path (`this.logger.error`) — entirely, so
an `ECONNREFUSED` event emits no log entry at all. -/
theorem refused_error_not_logged :
    (onErrorEvent stConnEx { code := ECONNREFUSED }).2 = [] := by
  simp [onErrorEvent]

/-- C6 (amended): an error event whose code is connection-refused is
dropped silently at this layer — `handleError` is not invoked, so it is
neither logged nor surfaced to the fault reporter; any other error cause is
passed to `handleError` (logged) exactly once; in neither case does the
error event mutate connection state: `isConnected`, the socket reference,
the connection promise, and the routing map are all unchanged. -/
theorem onErrorEvent_spec (st : ClientState) (e : ErrEvent) :
    (onErrorEvent st e).1 = st ∧
    (e.code = ECONNREFUSED → (onErrorEvent st e).2 = []) ∧
    (e.code ≠ ECONNREFUSED → (onErrorEvent st e).2 = handleError e) := by
  refine ⟨?_, ?_, ?_⟩
  · by_cases h : e.code = ECONNREFUSED <;> simp [onErrorEvent, h]
  · intro h
    simp [onErrorEvent, h]
  · intro h
    simp [onErrorEvent, h]

/-- C6 witness: a refused error on a connected client changes nothing and
logs nothing; a reset error changes nothing and is logged once. -/
theorem onErrorEvent_spec_witness :
    (onErrorEvent stConnEx { code := "ECONNREFUSED" }).1 = stConnEx ∧
    (onErrorEvent stConnEx { code := "ECONNREFUSED" }).2 = [] ∧
    (onErrorEvent stConnEx { code := "ECONNRESET" }).2 =
      handleError { code := "ECONNRESET" } :=
  ⟨(onErrorEvent_spec stConnEx { code := "ECONNREFUSED" }).1,
   (onErrorEvent_spec stConnEx { code := "ECONNREFUSED" }).2.1 rfl,
   (onErrorEvent_spec stConnEx { code := "ECONNRESET" }).2.2 (by decide)⟩

/-- C7: a decoded inbound message whose request identifier has no registered
callback makes `handleResponse` return without invoking any callback and
without any side effect: the state, routing map included, is unchanged. -/
theorem handleResponse_no_callback (st : ClientState) (msg : IncomingPacket)
    (h : mapGet st.routingMap msg.id = none) :
    handleResponse st msg = (st, []) := by
  simp [handleResponse, h]

/-- C7 witness: a response for the unregistered id 9 on a connected client
is a silent no-op. -/
theorem handleResponse_no_callback_witness :
    handleResponse stConnEx { id := 9, response := some "late" } = (stConnEx, []) :=
  handleResponse_no_callback stConnEx { id := 9, response := some "late" } (by decide)

/-- C8: if the shared connection promise would reject only because the
underlying connect stream ended empty (`EmptyError`), it instead resolves
silently with no value; any other rejection cause is re-thrown unchanged to
the awaiting callers. -/
theorem connection_catch_spec (r : Except StreamErr Nat) :
    (r = .error .emptyError → catchEmptyAsResolved r = .ok none) ∧
    (∀ m, r = .error (.other m) →
        catchEmptyAsResolved r = .error (.other m)) := by
  constructor
  · intro h
    simp [h, catchEmptyAsResolved]
  · intro m h
    simp [h, catchEmptyAsResolved]

/-- C8 witness: an `EmptyError` rejection resolves silently; a rejection
with another cause is re-thrown. -/
theorem connection_catch_spec_witness :
    catchEmptyAsResolved (Except.error StreamErr.emptyError : Except StreamErr Nat) =
      .ok none ∧
    catchEmptyAsResolved
        (Except.error (StreamErr.other "ECONNRESET") : Except StreamErr Nat) =
      .error (.other "ECONNRESET") :=
  ⟨(connection_catch_spec (Except.error StreamErr.emptyError)).1 rfl,
   (connection_catch_spec (Except.error (StreamErr.other "ECONNRESET"))).2
     "ECONNRESET" rfl⟩

/-- C9: `close()` requests a graceful end-of-stream exactly when a socket
exists, in all cases runs the same teardown as the close transition
(`handleClose`), and is idempotent: a second `close()` on the resulting
already-closed state performs no callback invocations, requests no
end-of-stream, and leaves the state (socket `none`, connection `none`,
`isConnected` false, empty routing map) unchanged. -/
theorem close_spec (st : ClientState) :
    (close st).2.2 = st.socket.isSome ∧
    (close st).1 = (handleClose st).1 ∧
    (close st).2.1 = (handleClose st).2 ∧
    close (close st).1 = ((close st).1, [], false) := by
  refine ⟨rfl, rfl, rfl, ?_⟩
  cases hm : st.routingMap with
  | nil =>
      cases st
      simp_all [close, handleClose]
  | cons p rest =>
      cases st
      simp_all [close, handleClose]

/-- C10: when `socket.sendMessage` throws after the callback has been
registered, `publish` invokes the callback with the failure, returns
`undefined` (`none`) instead of a cancellation handle, and the assigned
identifier remains registered in the routing map. -/
theorem publish_send_failure (st : ClientState) (id : Nat) (cb : Cb) :
    publish st id true false cb =
      ({ st with routingMap := mapSet st.routingMap id cb },
       [(cb, { err := some sendFailedErr })], none) ∧
    mapGet (publish st id true false cb).1.routingMap id = some cb := by
  constructor
  · simp [publish]
  · simp [publish, mapGet_mapSet_self]

end ClientTCP
